import Mathlib

/-!
Verification of tensorpipe/common/ibv.h: error-checking macros, RAII
deleters and creation helpers for InfiniBand verbs resources, device
discovery (IbvDeviceList::create), and the queue-pair connection state
machine.  The native verbs library (ibverbs) is an opaque collaborator:
its behaviour is modelled as explicit inputs (return values, errno
values) to the embedded functions.
-/

set_option autoImplicit false

namespace Tensorpipe

/-! ## Native error codes (from errno.h, referenced by the source) -/

/-- errno code ENODEV, whose message is "No such device". -/
def ENODEV : Int := 19

/-- errno code ENOSYS, whose message is "Function not implemented";
returned (negated, by old driver versions) when the module is not found. -/
def ENOSYS : Int := 38

/-- errno code EINVAL, "Invalid argument"; the code several verbs destroy
calls return (as a positive value) on failure. -/
def EINVAL : Int := 22

/-! ## Error checking macros (ibv.h lines 21-34)

`TP_THROW_SYSTEM_IF(cond, errno)` raises a system error carrying the
errno value when the condition holds.  We model a computation that may
raise a system error as `Except Int` (the `Int` is the surfaced errno). -/

/-- TP_CHECK_IBV_PTR: evaluates a pointer-producing native call; throws a
system error carrying errno if the pointer is null, otherwise returns the
pointer.  A possibly-null native pointer is modelled as `Option`. -/
def tpCheckIbvPtr {α : Type} (ptr : Option α) (errnoVal : Int) : Except Int α :=
  match ptr with
  | none => .error errnoVal
  | some p => .ok p

/-- TP_CHECK_IBV_INT: evaluates an int-returning native call; throws a
system error carrying errno if the return value is strictly negative. -/
def tpCheckIbvInt (rv : Int) (errnoVal : Int) : Except Int Unit :=
  if rv < 0 then .error errnoVal else .ok ()

/-- TP_CHECK_IBV_VOID: evaluates the native call and performs no error
checking at all; it can never raise. -/
def tpCheckIbvVoid {α : Type} (_opResult : α) : Except Int Unit :=
  .ok ()

/-! ## Resource handles (ibv.h lines 41-270)

Each handle owns one raw native pointer (modelled as `Nat`).  A creation
helper receives the native call's result (`Option Nat`: `none` for a null
pointer) together with the current errno value, and either fails with a
system error or returns a handle owning exactly the returned pointer.

A deleter invokes the matching native release call on the owned pointer
and feeds its return value through `TP_CHECK_IBV_INT` (or
`TP_CHECK_IBV_VOID` for the device list).  The native release call is
modelled as a function from the pointer to its return value; a deleter
run returns the list of pointers the native release call was invoked on
(so that "exactly once" is expressible) together with the outcome. -/

structure IbvContext where
  ptr : Nat
deriving DecidableEq, Repr

structure IbvProtectionDomain where
  ptr : Nat
deriving DecidableEq, Repr

structure IbvCompletionQueue where
  ptr : Nat
deriving DecidableEq, Repr

structure IbvSharedReceiveQueue where
  ptr : Nat
deriving DecidableEq, Repr

structure IbvMemoryRegion where
  ptr : Nat
deriving DecidableEq, Repr

structure IbvQueuePair where
  ptr : Nat
deriving DecidableEq, Repr

/-- createIbvContext (ibv.h lines 51-57): wraps TP_CHECK_IBV_PTR around
ibvLib.open_device. -/
def createIbvContext (openDeviceResult : Option Nat) (errnoVal : Int) :
    Except Int IbvContext :=
  (tpCheckIbvPtr openDeviceResult errnoVal).map IbvContext.mk

/-- createIbvProtectionDomain (ibv.h lines 180-186): wraps
TP_CHECK_IBV_PTR around ibvLib.alloc_pd. -/
def createIbvProtectionDomain (allocPdResult : Option Nat) (errnoVal : Int) :
    Except Int IbvProtectionDomain :=
  (tpCheckIbvPtr allocPdResult errnoVal).map IbvProtectionDomain.mk

/-- createIbvCompletionQueue (ibv.h lines 199-210): wraps
TP_CHECK_IBV_PTR around ibvLib.create_cq. -/
def createIbvCompletionQueue (createCqResult : Option Nat) (errnoVal : Int) :
    Except Int IbvCompletionQueue :=
  (tpCheckIbvPtr createCqResult errnoVal).map IbvCompletionQueue.mk

/-- createIbvSharedReceiveQueue (ibv.h lines 223-230): wraps
TP_CHECK_IBV_PTR around ibvLib.create_srq. -/
def createIbvSharedReceiveQueue (createSrqResult : Option Nat) (errnoVal : Int) :
    Except Int IbvSharedReceiveQueue :=
  (tpCheckIbvPtr createSrqResult errnoVal).map IbvSharedReceiveQueue.mk

/-- createIbvMemoryRegion (ibv.h lines 242-251): wraps TP_CHECK_IBV_PTR
around ibvLib.reg_mr. -/
def createIbvMemoryRegion (regMrResult : Option Nat) (errnoVal : Int) :
    Except Int IbvMemoryRegion :=
  (tpCheckIbvPtr regMrResult errnoVal).map IbvMemoryRegion.mk

/-- createIbvQueuePair (ibv.h lines 263-270): wraps TP_CHECK_IBV_PTR
around ibvLib.create_qp. -/
def createIbvQueuePair (createQpResult : Option Nat) (errnoVal : Int) :
    Except Int IbvQueuePair :=
  (tpCheckIbvPtr createQpResult errnoVal).map IbvQueuePair.mk

/-- IbvContextDeleter (ibv.h lines 41-47): calls ibvLib->close_device on
the owned pointer, once, through TP_CHECK_IBV_INT. -/
def ibvContextDeleter (closeDevice : Nat → Int) (errnoVal : Int) (p : Nat) :
    List Nat × Except Int Unit :=
  ([p], tpCheckIbvInt (closeDevice p) errnoVal)

/-- IbvProtectionDomainDeleter (ibv.h lines 169-175): calls
ibvLib->dealloc_pd once, through TP_CHECK_IBV_INT. -/
def ibvProtectionDomainDeleter (deallocPd : Nat → Int) (errnoVal : Int) (p : Nat) :
    List Nat × Except Int Unit :=
  ([p], tpCheckIbvInt (deallocPd p) errnoVal)

/-- IbvCompletionQueueDeleter (ibv.h lines 188-194): calls
ibvLib->destroy_cq once, through TP_CHECK_IBV_INT. -/
def ibvCompletionQueueDeleter (destroyCq : Nat → Int) (errnoVal : Int) (p : Nat) :
    List Nat × Except Int Unit :=
  ([p], tpCheckIbvInt (destroyCq p) errnoVal)

/-- IbvSharedReceiveQueueDeleter (ibv.h lines 212-218): calls
ibvLib->destroy_srq once, through TP_CHECK_IBV_INT. -/
def ibvSharedReceiveQueueDeleter (destroySrq : Nat → Int) (errnoVal : Int) (p : Nat) :
    List Nat × Except Int Unit :=
  ([p], tpCheckIbvInt (destroySrq p) errnoVal)

/-- IbvMemoryRegionDeleter (ibv.h lines 232-238): calls ibvLib->dereg_mr
once, through TP_CHECK_IBV_INT. -/
def ibvMemoryRegionDeleter (deregMr : Nat → Int) (errnoVal : Int) (p : Nat) :
    List Nat × Except Int Unit :=
  ([p], tpCheckIbvInt (deregMr p) errnoVal)

/-- IbvQueuePairDeleter (ibv.h lines 253-259): calls ibvLib->destroy_qp
once, through TP_CHECK_IBV_INT. -/
def ibvQueuePairDeleter (destroyQp : Nat → Int) (errnoVal : Int) (p : Nat) :
    List Nat × Except Int Unit :=
  ([p], tpCheckIbvInt (destroyQp p) errnoVal)

/-- IbvDeviceList::Deleter (ibv.h lines 156-162): calls
ibvLib->free_device_list once, through TP_CHECK_IBV_VOID, i.e. with no
error checking whatsoever. -/
def ibvDeviceListDeleter (freeDeviceList : Nat → Int) (_errnoVal : Int) (p : Nat) :
    List Nat × Except Int Unit :=
  ([p], tpCheckIbvVoid (freeDeviceList p))

/-! ## Device discovery: IbvDeviceList::create (ibv.h lines 73-137) -/

/-- IbvLib::LINK_LAYER_INFINIBAND (ibverbs enum value). -/
def LINK_LAYER_INFINIBAND : Nat := 1

/-- IbvLib::LINK_LAYER_ETHERNET (ibverbs enum value). -/
def LINK_LAYER_ETHERNET : Nat := 2

/-- IbvLib::port_state::PORT_ACTIVE (ibverbs enum value). -/
def PORT_ACTIVE : Nat := 4

/-- IbvLib::port_state::PORT_DOWN (ibverbs enum value). -/
def PORT_DOWN : Nat := 1

/-- The port attributes filled in by ibvLib.query_port that the discovery
loop inspects: link layer and port state, both native enum values. -/
structure PortAttr where
  link_layer : Nat
  state : Nat
deriving DecidableEq, Repr

/-- One enumerated adapter together with the (opaque) native behaviour the
discovery loop observes for it: whether open_device succeeds
(createIbvContext throwing std::system_error is modelled as
`openOk = false`), the return value and errno of query_port at the
requested port, and the port attributes query_port fills in. -/
structure DeviceEntry where
  openOk : Bool
  queryRv : Int
  queryErrno : Int
  portAttr : PortAttr
deriving DecidableEq, Repr

/-- The link-layer filter at ibv.h lines 111-118: the port is kept only
if its link layer is LINK_LAYER_INFINIBAND or LINK_LAYER_ETHERNET. -/
def linkLayerSuitable (a : PortAttr) : Bool :=
  a.link_layer == LINK_LAYER_INFINIBAND || a.link_layer == LINK_LAYER_ETHERNET

/-- The port-state filter at ibv.h lines 120-126: the port is kept only
if its state is PORT_ACTIVE. -/
def portActive (a : PortAttr) : Bool :=
  a.state == PORT_ACTIVE

/-- A device survives discovery iff it opened and its queried port passed
both filters. -/
def devicePasses (d : DeviceEntry) : Bool :=
  d.openOk && (linkLayerSuitable d.portAttr && portActive d.portAttr)

/-- The for-loop of IbvDeviceList::create (ibv.h lines 95-128).  For each
device: an open failure is caught and the device skipped (`continue`);
query_port goes through TP_CHECK_IBV_INT, so a negative return raises a
system error that propagates out of the whole loop (`.error`); a device
failing the link-layer or port-state filter is skipped; a device passing
both is appended (push_back) to the accumulated list, preserving
enumeration order. -/
def enumerateLoop : List DeviceEntry → Except Int (List DeviceEntry)
  | [] => .ok []
  | d :: rest =>
    if d.openOk = false then
      enumerateLoop rest
    else if d.queryRv < 0 then
      .error d.queryErrno
    else if linkLayerSuitable d.portAttr = false then
      enumerateLoop rest
    else if portActive d.portAttr = false then
      enumerateLoop rest
    else
      match enumerateLoop rest with
      | .error e => .error e
      | .ok l => .ok (d :: l)

/-- The observable behaviour of the native library during one discovery
call: the result of get_device_list (`none` models a null pointer, with
`enumErrno` the errno it left), and the per-device behaviours. -/
structure IbvLibBehavior where
  deviceListResult : Option (List DeviceEntry)
  enumErrno : Int
deriving DecidableEq, Repr

/-- The three ways IbvDeviceList::create can end: returning a
(SystemError, empty list) tuple; letting a system error escape as an
exception (the TP_CHECK_IBV_INT around query_port); or returning
(kSuccess, list), where the list records the devices accessible through
size() and operator[] in order. -/
inductive CreateOutcome where
  | returnedError (code : Int)
  | threw (code : Int)
  | success (devices : List DeviceEntry)
deriving DecidableEq, Repr

/-- IbvDeviceList::create (ibv.h lines 73-137).  If get_device_list
returns null, a SystemError is returned whose code is errno, except that
an errno equal to -ENOSYS (the inverted value old libibverbs versions set
when the module was not found) is flipped to ENOSYS.  Otherwise the
filtering loop runs; if it raises, the exception escapes, else the
filtered list is returned with Error::kSuccess. -/
def IbvDeviceList.create (lib : IbvLibBehavior) : CreateOutcome :=
  match lib.deviceListResult with
  | none =>
      .returnedError (if lib.enumErrno = -ENOSYS then ENOSYS else lib.enumErrno)
  | some devs =>
      match enumerateLoop devs with
      | .error e => .threw e
      | .ok l => .success l

/-- IbvDeviceList::size (ibv.h lines 139-141): the stored count, which
create sets to available_deviceList.size(). -/
def IbvDeviceList.size (available : List DeviceEntry) : Nat :=
  available.length

/-- IbvDeviceList::operator[] (ibv.h lines 143-145): indexes only the
filtered available_deviceList_. -/
def IbvDeviceList.get (available : List DeviceEntry) (i : Nat)
    (h : i < available.length) : DeviceEntry :=
  available.get ⟨i, h⟩

/-! ## Setup information and the queue-pair state machine

The definitions of makeIbvSetupInformation and the four
transitionIbvQueuePairTo* functions live in tensorpipe/common/ibv.cc,
which is not part of the sources here; ibv.h lines 293-318 only declares
them.  They are modelled from the spec. -/

/-- A 128-bit global identifier (IbvLib::gid), as its two 64-bit halves. -/
structure IbvGid where
  subnetPrefix : Nat
  interfaceId : Nat
deriving DecidableEq, Repr

/-- IbvAddress (ibv.h lines 274-283). -/
structure IbvAddress where
  portNum : Nat
  globalIdentifierIndex : Nat
  localIdentifier : Nat
  globalIdentifier : IbvGid
  maximumTransmissionUnit : Nat
  maximumMessageSize : Nat
deriving DecidableEq, Repr

/-- IbvSetupInformation (ibv.h lines 285-291). -/
structure IbvSetupInformation where
  localIdentifier : Nat
  globalIdentifier : IbvGid
  queuePairNumber : Nat
  maximumTransmissionUnit : Nat
  maximumMessageSize : Nat
deriving DecidableEq, Repr

/-- Modelled from the spec: the body of makeIbvSetupInformation is in
tensorpipe/common/ibv.cc, absent from the sources.  Per the spec it is
the pure combination of an Address with the created queue pair's assigned
number: it copies the address's local identifier, global identifier,
transmission unit and maximum message size next to the queue pair number,
performing no I/O and never failing. -/
def makeIbvSetupInformation (addr : IbvAddress) (qpNum : Nat) :
    IbvSetupInformation :=
  { localIdentifier := addr.localIdentifier
    globalIdentifier := addr.globalIdentifier
    queuePairNumber := qpNum
    maximumTransmissionUnit := addr.maximumTransmissionUnit
    maximumMessageSize := addr.maximumMessageSize }

/-- The queue-pair states of the connection state machine (spec section
4.4): reset (initial) → init → ready-to-receive → ready-to-send, plus the
error state. -/
inductive IbvQpState where
  | reset
  | init
  | readyToReceive
  | readyToSend
  | error
deriving DecidableEq, Repr

/-- Modelled from the spec: transitionIbvQueuePairToInit is defined in
tensorpipe/common/ibv.cc, absent from the sources.  Per the spec the
forward transitions progress only monotonically: the native modify call
accepts the INIT attribute set only from reset and rejects it (with a
system error carrying a native code such as EINVAL) from any other
state. -/
def transitionIbvQueuePairToInit : IbvQpState → Except Int IbvQpState
  | .reset => .ok .init
  | _ => .error EINVAL

/-- Modelled from the spec: transitionIbvQueuePairToReadyToReceive is
defined in tensorpipe/common/ibv.cc, absent from the sources.  Per the
spec it is accepted only from init. -/
def transitionIbvQueuePairToReadyToReceive : IbvQpState → Except Int IbvQpState
  | .init => .ok .readyToReceive
  | _ => .error EINVAL

/-- Modelled from the spec: transitionIbvQueuePairToReadyToSend is
defined in tensorpipe/common/ibv.cc, absent from the sources.  Per the
spec it is only valid after ready-to-receive; the adapter rejects it from
any other state. -/
def transitionIbvQueuePairToReadyToSend : IbvQpState → Except Int IbvQpState
  | .readyToReceive => .ok .readyToSend
  | _ => .error EINVAL

/-- Modelled from the spec: transitionIbvQueuePairToError is defined in
tensorpipe/common/ibv.cc, absent from the sources.  Per the spec it
forces the queue pair to the error state from any state and succeeds. -/
def transitionIbvQueuePairToError (_s : IbvQpState) : Except Int IbvQpState :=
  .ok .error

/-! ## Concrete native behaviours used to instantiate the theorems -/

/-- An adapter that opens fine and whose port is InfiniBand and active. -/
def devActive : DeviceEntry :=
  { openOk := true, queryRv := 0, queryErrno := 0,
    portAttr := { link_layer := LINK_LAYER_INFINIBAND, state := PORT_ACTIVE } }

/-- An adapter that opens fine but whose Ethernet port is down. -/
def devDown : DeviceEntry :=
  { openOk := true, queryRv := 0, queryErrno := 0,
    portAttr := { link_layer := LINK_LAYER_ETHERNET, state := PORT_DOWN } }

/-- An adapter whose open_device fails (createIbvContext throws). -/
def devNoOpen : DeviceEntry :=
  { openOk := false, queryRv := 0, queryErrno := 0,
    portAttr := { link_layer := 0, state := 0 } }

/-- An adapter that opens fine but whose query_port fails with EINVAL. -/
def devBadQuery : DeviceEntry :=
  { openOk := true, queryRv := -1, queryErrno := EINVAL,
    portAttr := { link_layer := 0, state := 0 } }

/-- A concrete local address used to instantiate setup-information facts. -/
def addrA : IbvAddress :=
  { portNum := 1, globalIdentifierIndex := 0, localIdentifier := 3,
    globalIdentifier := { subnetPrefix := 100, interfaceId := 200 },
    maximumTransmissionUnit := 1024, maximumMessageSize := 65536 }

/-! ## Helper lemmas -/

/-- TP_CHECK_IBV_INT on a strictly negative return raises the errno. -/
theorem tpCheckIbvInt_neg {rv e : Int} (h : rv < 0) :
    tpCheckIbvInt rv e = .error e := by
  simp [tpCheckIbvInt, h]

/-- TP_CHECK_IBV_INT on a nonnegative return raises nothing. -/
theorem tpCheckIbvInt_nonneg {rv e : Int} (h : 0 ≤ rv) :
    tpCheckIbvInt rv e = .ok () := by
  simp [tpCheckIbvInt, not_lt.mpr h]

/-- When the discovery loop returns without raising, the list it returns
is exactly the enumeration-order filter of the devices by devicePasses. -/
theorem enumerateLoop_ok_filter (devs : List DeviceEntry) :
    ∀ l, enumerateLoop devs = Except.ok l → l = devs.filter devicePasses := by
  induction devs with
  | nil =>
    intro l h
    simp only [enumerateLoop, Except.ok.injEq] at h
    rw [← h, List.filter_nil]
  | cons d rest ih =>
    intro l h
    simp only [enumerateLoop] at h
    by_cases hopen : d.openOk = false
    · rw [if_pos hopen] at h
      rw [ih l h, List.filter_cons]
      simp [devicePasses, hopen]
    · have hopen2 : d.openOk = true := by
        revert hopen; cases d.openOk <;> simp
      rw [if_neg hopen] at h
      by_cases hq : d.queryRv < 0
      · rw [if_pos hq] at h
        exact absurd h (by simp)
      · rw [if_neg hq] at h
        by_cases hll : linkLayerSuitable d.portAttr = false
        · rw [if_pos hll] at h
          rw [ih l h, List.filter_cons]
          simp [devicePasses, hll]
        · have hll2 : linkLayerSuitable d.portAttr = true := by
            revert hll; cases linkLayerSuitable d.portAttr <;> simp
          rw [if_neg hll] at h
          by_cases hpa : portActive d.portAttr = false
          · rw [if_pos hpa] at h
            rw [ih l h, List.filter_cons]
            simp [devicePasses, hpa]
          · have hpa2 : portActive d.portAttr = true := by
              revert hpa; cases portActive d.portAttr <;> simp
            rw [if_neg hpa] at h
            cases hrest : enumerateLoop rest with
            | error e => rw [hrest] at h; exact absurd h (by simp)
            | ok l2 =>
              rw [hrest] at h
              simp only [Except.ok.injEq] at h
              rw [← h, List.filter_cons]
              simp [devicePasses, hopen2, hll2, hpa2, ih l2 hrest]

/-- A device that fails to open, or that opens and queries fine but fails
a filter, is skipped: the loop continues on the remaining devices. -/
theorem enumerateLoop_skip (d : DeviceEntry) (rest : List DeviceEntry)
    (h : d.openOk = false ∨ (0 ≤ d.queryRv ∧ devicePasses d = false)) :
    enumerateLoop (d :: rest) = enumerateLoop rest := by
  rcases h with h | ⟨hq, hp⟩
  · simp [enumerateLoop, h]
  · have hq2 : ¬ d.queryRv < 0 := not_lt.mpr hq
    by_cases hopen : d.openOk = false
    · simp [enumerateLoop, hopen]
    · have hopen2 : d.openOk = true := by
        revert hopen; cases d.openOk <;> simp
      by_cases hll : linkLayerSuitable d.portAttr = false
      · simp [enumerateLoop, hopen2, hq2, hll]
      · have hll2 : linkLayerSuitable d.portAttr = true := by
          revert hll; cases linkLayerSuitable d.portAttr <;> simp
        by_cases hpa : portActive d.portAttr = false
        · simp [enumerateLoop, hopen2, hq2, hll2, hpa]
        · exfalso
          have hpa2 : portActive d.portAttr = true := by
            revert hpa; cases portActive d.portAttr <;> simp
          rw [devicePasses, hopen2, hll2, hpa2] at hp
          simp at hp

/-- When every device is skipped, the loop returns the empty list with no
error. -/
theorem enumerateLoop_all_skip (devs : List DeviceEntry)
    (hall : ∀ d ∈ devs, d.openOk = true → 0 ≤ d.queryRv ∧ devicePasses d = false) :
    enumerateLoop devs = Except.ok [] := by
  induction devs with
  | nil => rfl
  | cons d rest ih =>
    have hskip : d.openOk = false ∨ (0 ≤ d.queryRv ∧ devicePasses d = false) := by
      cases hopen : d.openOk
      · exact Or.inl rfl
      · exact Or.inr (hall d (List.mem_cons_self d rest) hopen)
    rw [enumerateLoop_skip d rest hskip]
    exact ih (fun x hx hox => hall x (List.mem_cons_of_mem d hx) hox)

/-- If the devices before some device d neither fail a query nor abort,
and d opens but its port query fails, the loop raises d's errno. -/
theorem enumerateLoop_query_failure (pre : List DeviceEntry) (d : DeviceEntry)
    (post : List DeviceEntry)
    (hpre : ∀ p ∈ pre, p.openOk = true → 0 ≤ p.queryRv)
    (hopen : d.openOk = true) (hq : d.queryRv < 0) :
    enumerateLoop (pre ++ d :: post) = Except.error d.queryErrno := by
  induction pre with
  | nil =>
    simp only [List.nil_append]
    simp [enumerateLoop, hopen, hq]
  | cons p pre ih =>
    have htail : enumerateLoop (pre ++ d :: post) = Except.error d.queryErrno :=
      ih (fun x hx => hpre x (List.mem_cons_of_mem p hx))
    cases hpo : p.openOk
    · simp [List.cons_append, enumerateLoop, hpo, htail]
    · have hpq : ¬ p.queryRv < 0 :=
        not_lt.mpr (hpre p (List.mem_cons_self p pre) hpo)
      by_cases hll : linkLayerSuitable p.portAttr = false
      · simp [List.cons_append, enumerateLoop, hpo, hpq, hll, htail]
      · by_cases hpa : portActive p.portAttr = false
        · simp [List.cons_append, enumerateLoop, hpo, hpq, hll, hpa, htail]
        · simp [List.cons_append, enumerateLoop, hpo, hpq, hll, hpa, htail]

/-- Unfolding IbvDeviceList::create when enumeration succeeded. -/
theorem create_eq_of_some (lib : IbvLibBehavior) (devs : List DeviceEntry)
    (h : lib.deviceListResult = some devs) :
    IbvDeviceList.create lib =
      (match enumerateLoop devs with
        | Except.error e => CreateOutcome.threw e
        | Except.ok l => CreateOutcome.success l) := by
  unfold IbvDeviceList.create
  rw [h]

/-! ## Claim theorems -/

/-- Claim C1: whenever IbvDeviceList::create returns with success, the
returned list is exactly the enumeration-order filter of the native
device list by "opened successfully, link layer InfiniBand or Ethernet,
port state active"; hence size() equals the number of such adapters,
operator[] accesses only adapters passing both predicates, and entries
keep their relative native enumeration order (being a filter of it). -/
theorem discovery_filters_and_orders (lib : IbvLibBehavior)
    (devs l : List DeviceEntry)
    (hdevs : lib.deviceListResult = some devs)
    (hok : IbvDeviceList.create lib = CreateOutcome.success l) :
    l = devs.filter devicePasses ∧
    IbvDeviceList.size l = (devs.filter devicePasses).length ∧
    ∀ i (hi : i < l.length), devicePasses (IbvDeviceList.get l i hi) = true := by
  have hloop : enumerateLoop devs = Except.ok l := by
    rw [create_eq_of_some lib devs hdevs] at hok
    cases hrest : enumerateLoop devs with
    | error e => rw [hrest] at hok; simp at hok
    | ok l2 =>
      rw [hrest] at hok
      simp at hok
      rw [hok]
  have hfilter := enumerateLoop_ok_filter devs l hloop
  have hforall : ∀ x ∈ l, devicePasses x = true := by
    rw [hfilter]
    exact fun x hx => (List.mem_filter.mp hx).2
  refine ⟨hfilter, by rw [IbvDeviceList.size, hfilter], ?_⟩
  intro i hi
  exact hforall _ (List.get_mem l i hi)

/-- Witness for C1 at a three-adapter enumeration: one active InfiniBand
adapter, one down Ethernet port, one open failure; only the first
survives. -/
theorem discovery_filters_and_orders_witness :
    [devActive] = List.filter devicePasses [devActive, devDown, devNoOpen] ∧
    IbvDeviceList.size [devActive] =
      (List.filter devicePasses [devActive, devDown, devNoOpen]).length :=
  ⟨(discovery_filters_and_orders ⟨some [devActive, devDown, devNoOpen], 0⟩
      [devActive, devDown, devNoOpen] [devActive] rfl (by decide)).1,
    (discovery_filters_and_orders ⟨some [devActive, devDown, devNoOpen], 0⟩
      [devActive, devDown, devNoOpen] [devActive] rfl (by decide)).2.1⟩

/-- Claim C2 counterexample: "no such device" names errno ENODEV (19),
but the code checks for -ENOSYS (-38, "Function not implemented", the
code old drivers returned when the module was missing).  At enumeration
failure with errno = -ENODEV the error is surfaced unchanged as -ENODEV,
not normalized to ENODEV as the claim states; conversely -ENOSYS, which
the claim says is "any other code" to be surfaced unchanged, is flipped
to ENOSYS. -/
theorem enum_error_enodev_not_normalized :
    IbvDeviceList.create { deviceListResult := none, enumErrno := -ENODEV } =
      CreateOutcome.returnedError (-ENODEV) ∧
    IbvDeviceList.create { deviceListResult := none, enumErrno := -ENODEV } ≠
      CreateOutcome.returnedError ENODEV ∧
    IbvDeviceList.create { deviceListResult := none, enumErrno := -ENOSYS } ≠
      CreateOutcome.returnedError (-ENOSYS) := by
  decide

/-- Claim C2 (amended): when get_device_list returns null, create returns
a system error; an errno equal to -ENOSYS (function not implemented, the
inverted code of old drivers missing the module) is normalized to the
positive ENOSYS, and every other errno value is surfaced unchanged. -/
theorem enum_error_normalizes_enosys (lib : IbvLibBehavior)
    (h : lib.deviceListResult = none) :
    IbvDeviceList.create lib =
      CreateOutcome.returnedError
        (if lib.enumErrno = -ENOSYS then ENOSYS else lib.enumErrno) ∧
    (lib.enumErrno = -ENOSYS →
      IbvDeviceList.create lib = CreateOutcome.returnedError ENOSYS) ∧
    (lib.enumErrno ≠ -ENOSYS →
      IbvDeviceList.create lib = CreateOutcome.returnedError lib.enumErrno) := by
  unfold IbvDeviceList.create
  rw [h]
  refine ⟨rfl, fun he => ?_, fun hne => ?_⟩
  · rw [if_pos he]
  · rw [if_neg hne]

/-- Witness for C2 (amended): -ENOSYS is flipped to ENOSYS; -ENODEV is
surfaced unchanged. -/
theorem enum_error_normalizes_enosys_witness :
    IbvDeviceList.create { deviceListResult := none, enumErrno := -ENOSYS } =
      CreateOutcome.returnedError ENOSYS ∧
    IbvDeviceList.create { deviceListResult := none, enumErrno := -ENODEV } =
      CreateOutcome.returnedError (-ENODEV) :=
  ⟨(enum_error_normalizes_enosys { deviceListResult := none, enumErrno := -ENOSYS }
      rfl).2.1 rfl,
    (enum_error_normalizes_enosys { deviceListResult := none, enumErrno := -ENODEV }
      rfl).2.2 (by decide)⟩

/-- Claim C3 counterexample: several native release calls (destroy_qp and
friends) report failure by returning a positive errno value such as
EINVAL; under the spec's own convention (zero status = success, anything
else an error condition) a return of EINVAL reports failure, yet the
deleter's TP_CHECK_IBV_INT check (rv < 0) surfaces no error there, so the
failure is silently swallowed, contradicting the claim that every
reported release failure is surfaced. -/
theorem release_positive_failure_swallowed :
    (ibvQueuePairDeleter (fun _ => EINVAL) EINVAL 7).2 = Except.ok () ∧
    EINVAL ≠ 0 :=
  ⟨rfl, by decide⟩

/-- Claim C3 (amended): for each of the six Resource Handle variants,
destruction invokes the matching native release call exactly once, and
the release outcome is surfaced as a system error exactly when the native
return value is strictly negative; a nonnegative return (including the
positive errno-value convention of several verbs destroy calls) is
treated as success. -/
theorem release_negative_failure_surfaced (f : Nat → Int) (e : Int) (p : Nat) :
    ((ibvContextDeleter f e p).1 = [p] ∧
      (f p < 0 → (ibvContextDeleter f e p).2 = Except.error e) ∧
      (0 ≤ f p → (ibvContextDeleter f e p).2 = Except.ok ())) ∧
    ((ibvProtectionDomainDeleter f e p).1 = [p] ∧
      (f p < 0 → (ibvProtectionDomainDeleter f e p).2 = Except.error e) ∧
      (0 ≤ f p → (ibvProtectionDomainDeleter f e p).2 = Except.ok ())) ∧
    ((ibvCompletionQueueDeleter f e p).1 = [p] ∧
      (f p < 0 → (ibvCompletionQueueDeleter f e p).2 = Except.error e) ∧
      (0 ≤ f p → (ibvCompletionQueueDeleter f e p).2 = Except.ok ())) ∧
    ((ibvSharedReceiveQueueDeleter f e p).1 = [p] ∧
      (f p < 0 → (ibvSharedReceiveQueueDeleter f e p).2 = Except.error e) ∧
      (0 ≤ f p → (ibvSharedReceiveQueueDeleter f e p).2 = Except.ok ())) ∧
    ((ibvMemoryRegionDeleter f e p).1 = [p] ∧
      (f p < 0 → (ibvMemoryRegionDeleter f e p).2 = Except.error e) ∧
      (0 ≤ f p → (ibvMemoryRegionDeleter f e p).2 = Except.ok ())) ∧
    ((ibvQueuePairDeleter f e p).1 = [p] ∧
      (f p < 0 → (ibvQueuePairDeleter f e p).2 = Except.error e) ∧
      (0 ≤ f p → (ibvQueuePairDeleter f e p).2 = Except.ok ())) := by
  refine ⟨⟨rfl, ?_, ?_⟩, ⟨rfl, ?_, ?_⟩, ⟨rfl, ?_, ?_⟩,
    ⟨rfl, ?_, ?_⟩, ⟨rfl, ?_, ?_⟩, ⟨rfl, ?_, ?_⟩⟩ <;> intro h
  all_goals
    first
      | exact tpCheckIbvInt_neg h
      | exact tpCheckIbvInt_nonneg h

/-- Witness for C3 (amended): a close_device returning -1 surfaces the
errno; a destroy_qp returning 0 surfaces nothing. -/
theorem release_negative_failure_surfaced_witness :
    (ibvContextDeleter (fun _ => -1) 9 3).2 = Except.error 9 ∧
    (ibvQueuePairDeleter (fun _ => 0) 9 3).2 = Except.ok () :=
  ⟨(release_negative_failure_surfaced (fun _ => -1) 9 3).1.2.1 (by decide),
    (release_negative_failure_surfaced (fun _ => 0) 9 3).2.2.2.2.2.2.2
      (by decide)⟩

/-- Claim C4: an adapter that fails to open, or whose queried port has an
unsuitable link layer or a non-active state, is skipped without aborting
the loop (the loop result is that of the remaining adapters), and when
every adapter is skipped this way create returns success with an empty
list, so size() = 0 and no error. -/
theorem discovery_skips_unsuitable (lib : IbvLibBehavior)
    (devs : List DeviceEntry)
    (hdevs : lib.deviceListResult = some devs)
    (hall : ∀ d ∈ devs, d.openOk = true → 0 ≤ d.queryRv ∧ devicePasses d = false) :
    (IbvDeviceList.create lib = CreateOutcome.success [] ∧
      IbvDeviceList.size ([] : List DeviceEntry) = 0) ∧
    ∀ (d : DeviceEntry) (rest : List DeviceEntry),
      (d.openOk = false ∨ (0 ≤ d.queryRv ∧ devicePasses d = false)) →
      enumerateLoop (d :: rest) = enumerateLoop rest := by
  refine ⟨⟨?_, rfl⟩, enumerateLoop_skip⟩
  simp [create_eq_of_some lib devs hdevs, enumerateLoop_all_skip devs hall]

/-- Witness for C4 at the spec's scenario: the only adapter's port is
down; discovery returns success with an empty list. -/
theorem discovery_skips_unsuitable_witness :
    IbvDeviceList.create { deviceListResult := some [devDown], enumErrno := 0 } =
      CreateOutcome.success [] :=
  (discovery_skips_unsuitable
    { deviceListResult := some [devDown], enumErrno := 0 }
    [devDown] rfl (by decide)).1.1

/-- Claim C5: each of the six creation helpers fails with a system error
carrying errno exactly when the native call returns a null handle, and on
a non-null handle succeeds with a handle owning exactly that pointer. -/
theorem creation_null_fails_nonnull_owns (p : Nat) (e : Int) :
    createIbvContext none e = Except.error e ∧
    createIbvContext (some p) e = Except.ok ⟨p⟩ ∧
    createIbvProtectionDomain none e = Except.error e ∧
    createIbvProtectionDomain (some p) e = Except.ok ⟨p⟩ ∧
    createIbvCompletionQueue none e = Except.error e ∧
    createIbvCompletionQueue (some p) e = Except.ok ⟨p⟩ ∧
    createIbvSharedReceiveQueue none e = Except.error e ∧
    createIbvSharedReceiveQueue (some p) e = Except.ok ⟨p⟩ ∧
    createIbvMemoryRegion none e = Except.error e ∧
    createIbvMemoryRegion (some p) e = Except.ok ⟨p⟩ ∧
    createIbvQueuePair none e = Except.error e ∧
    createIbvQueuePair (some p) e = Except.ok ⟨p⟩ :=
  ⟨rfl, rfl, rfl, rfl, rfl, rfl, rfl, rfl, rfl, rfl, rfl, rfl⟩

/-- Claim C6: makeIbvSetupInformation is a pure deterministic function of
the Address and the queue pair number: equal inputs give bit-identical
results, and the result fields are exactly the address's fields next to
the queue pair number (so nothing else can influence the result). -/
theorem makeIbvSetupInformation_pure (a1 a2 : IbvAddress) (q1 q2 : Nat)
    (ha : a1 = a2) (hq : q1 = q2) :
    makeIbvSetupInformation a1 q1 = makeIbvSetupInformation a2 q2 ∧
    (makeIbvSetupInformation a1 q1).localIdentifier = a1.localIdentifier ∧
    (makeIbvSetupInformation a1 q1).globalIdentifier = a1.globalIdentifier ∧
    (makeIbvSetupInformation a1 q1).queuePairNumber = q1 ∧
    (makeIbvSetupInformation a1 q1).maximumTransmissionUnit =
      a1.maximumTransmissionUnit ∧
    (makeIbvSetupInformation a1 q1).maximumMessageSize =
      a1.maximumMessageSize := by
  subst ha hq
  exact ⟨rfl, rfl, rfl, rfl, rfl, rfl⟩

/-- Witness for C6 at a concrete address and queue pair number. -/
theorem makeIbvSetupInformation_pure_witness :
    makeIbvSetupInformation addrA 42 = makeIbvSetupInformation addrA 42 ∧
    (makeIbvSetupInformation addrA 42).queuePairNumber = 42 :=
  ⟨(makeIbvSetupInformation_pure addrA addrA 42 42 rfl rfl).1,
    (makeIbvSetupInformation_pure addrA addrA 42 42 rfl rfl).2.2.2.1⟩

/-- Claim C7: transitionIbvQueuePairToError succeeds and lands in the
error state from every state (reset, init, ready-to-receive,
ready-to-send, and error itself), while the three other transitions
progress only monotonically forward: each succeeds only from its unique
predecessor state and moves to the next state. -/
theorem qp_error_reachable_forward_monotonic :
    (∀ s, transitionIbvQueuePairToError s = Except.ok IbvQpState.error) ∧
    (∀ s t, transitionIbvQueuePairToInit s = Except.ok t →
      s = IbvQpState.reset ∧ t = IbvQpState.init) ∧
    (∀ s t, transitionIbvQueuePairToReadyToReceive s = Except.ok t →
      s = IbvQpState.init ∧ t = IbvQpState.readyToReceive) ∧
    (∀ s t, transitionIbvQueuePairToReadyToSend s = Except.ok t →
      s = IbvQpState.readyToReceive ∧ t = IbvQpState.readyToSend) := by
  refine ⟨fun _ => rfl, ?_, ?_, ?_⟩ <;>
    intro s t h <;>
    cases s <;>
    simp_all [transitionIbvQueuePairToInit,
      transitionIbvQueuePairToReadyToReceive,
      transitionIbvQueuePairToReadyToSend]

/-- Witness for C7: toError from ready-to-send (and from reset) lands in
error; toInit applied in reset lands in init. -/
theorem qp_error_reachable_forward_monotonic_witness :
    transitionIbvQueuePairToError IbvQpState.readyToSend =
      Except.ok IbvQpState.error ∧
    transitionIbvQueuePairToError IbvQpState.reset =
      Except.ok IbvQpState.error ∧
    (IbvQpState.reset = IbvQpState.reset ∧ IbvQpState.init = IbvQpState.init) :=
  ⟨qp_error_reachable_forward_monotonic.1 IbvQpState.readyToSend,
    qp_error_reachable_forward_monotonic.1 IbvQpState.reset,
    qp_error_reachable_forward_monotonic.2.1 IbvQpState.reset IbvQpState.init
      rfl⟩

/-- Claim C8: a query_port failure (negative return) on a successfully
opened adapter is not a non-fatal skip: the system error escapes
IbvDeviceList::create as an exception carrying that adapter's errno,
aborting the whole enumeration; in particular the outcome is neither a
success with any list nor an error returned in the tuple. -/
theorem query_port_failure_aborts_discovery (lib : IbvLibBehavior)
    (pre post : List DeviceEntry) (d : DeviceEntry)
    (hdevs : lib.deviceListResult = some (pre ++ d :: post))
    (hpre : ∀ p ∈ pre, p.openOk = true → 0 ≤ p.queryRv)
    (hopen : d.openOk = true) (hq : d.queryRv < 0) :
    IbvDeviceList.create lib = CreateOutcome.threw d.queryErrno ∧
    (∀ l, IbvDeviceList.create lib ≠ CreateOutcome.success l) ∧
    (∀ e, IbvDeviceList.create lib ≠ CreateOutcome.returnedError e) := by
  have hthrew : IbvDeviceList.create lib = CreateOutcome.threw d.queryErrno := by
    simp [create_eq_of_some lib (pre ++ d :: post) hdevs,
      enumerateLoop_query_failure pre d post hpre hopen hq]
  refine ⟨hthrew, fun l => ?_, fun e => ?_⟩ <;> rw [hthrew] <;> simp

/-- Witness for C8: the first adapter fails to open (skipped), the second
opens but its port query fails with EINVAL; create throws EINVAL even
though a healthy third adapter follows. -/
theorem query_port_failure_aborts_discovery_witness :
    IbvDeviceList.create
      { deviceListResult := some [devNoOpen, devBadQuery, devActive],
        enumErrno := 0 } =
      CreateOutcome.threw devBadQuery.queryErrno :=
  (query_port_failure_aborts_discovery
    { deviceListResult := some [devNoOpen, devBadQuery, devActive],
      enumErrno := 0 }
    [devNoOpen] [devActive] devBadQuery rfl (by decide) (by decide)
    (by decide)).1

/-- Claim C9: TP_CHECK_IBV_INT raises a system error if and only if the
checked return value is strictly negative; in particular a strictly
positive return (the errno-value convention of several native release
calls) raises nothing, and every integer-checked release path is exactly
this check applied to the native return value. -/
theorem int_check_negative_iff (rv e : Int) (f : Nat → Int) (p : Nat) :
    (tpCheckIbvInt rv e = Except.error e ↔ rv < 0) ∧
    (0 < rv → tpCheckIbvInt rv e = Except.ok ()) ∧
    (ibvProtectionDomainDeleter f e p).2 = tpCheckIbvInt (f p) e ∧
    (ibvQueuePairDeleter f e p).2 = tpCheckIbvInt (f p) e := by
  refine ⟨⟨fun h => ?_, fun h => tpCheckIbvInt_neg h⟩,
    fun h => tpCheckIbvInt_nonneg (le_of_lt h), rfl, rfl⟩
  by_contra hr
  rw [tpCheckIbvInt_nonneg (not_lt.mp hr)] at h
  exact absurd h (by simp)

/-- Witness for C9: a -1 return raises the errno, a +22 return (EINVAL
reported positively) raises nothing. -/
theorem int_check_negative_iff_witness :
    tpCheckIbvInt (-1) 7 = Except.error 7 ∧
    tpCheckIbvInt 22 7 = Except.ok () :=
  ⟨(int_check_negative_iff (-1) 7 (fun _ => 0) 0).1.mpr (by decide),
    (int_check_negative_iff 22 7 (fun _ => 0) 0).2.1 (by decide)⟩

/-- Claim C10: releasing the device list goes through TP_CHECK_IBV_VOID,
which performs no error checking: whatever value the native
free_device_list call produces and whatever errno is set, the deleter
invokes the native call exactly once and never raises any error. -/
theorem device_list_free_never_errors (f : Nat → Int) (e : Int) (p : Nat) :
    (ibvDeviceListDeleter f e p).2 = Except.ok () ∧
    (ibvDeviceListDeleter f e p).1 = [p] ∧
    tpCheckIbvVoid (f p) = Except.ok () :=
  ⟨rfl, rfl, rfl⟩

end Tensorpipe
